import Mathlib

/-!
Shallow embedding of the `auto_areas` Home Assistant integration
(`custom_components/auto_areas`), covering the calculation library
(`calculations.py`) and the aggregate-tracker entity (`auto_entity.py`).

Machine floats are modelled by exact rationals (`ℚ`); Home Assistant state
values (`State.state`) are modelled by the inductive `StateVal` covering the
values reachable in the host (`None`, strings, and the defensively handled
native booleans).  Fallible parsing is modelled with `Option`.
-/

namespace AutoAreas

/-- `homeassistant.const.STATE_UNKNOWN`. -/
def STATE_UNKNOWN : String := "unknown"

/-- `homeassistant.const.STATE_UNAVAILABLE`. -/
def STATE_UNAVAILABLE : String := "unavailable"

/-- A raw Home Assistant state value (`State.state`).  The host stores state
values as strings (or the state object is absent); the source additionally
guards for native booleans, so those are included. -/
inductive StateVal where
  | none
  | str (s : String)
  | bool (b : Bool)
deriving DecidableEq, Repr

/-- `homeassistant.core.State`: entity id, raw value and the `last_updated`
timestamp (modelled as a natural number tick). -/
structure State where
  entity_id : String
  state : StateVal
  last_updated : Nat
deriving DecidableEq, Repr

/-- Value of a list of decimal digit characters, most significant first. -/
def natOfDigits (ds : List Char) : Nat :=
  ds.foldl (fun a c => a * 10 + (c.toNat - 48)) 0

/-- Parses the part of a float literal after the mantissa: either nothing, or
an exponent `e`/`E`, optional sign, and at least one digit. -/
def parseExp : List Char → Option Int
  | [] => some 0
  | c :: r =>
    if c = 'e' ∨ c = 'E' then
      let sr : Int × List Char :=
        match r with
        | '+' :: rr => (1, rr)
        | '-' :: rr => (-1, rr)
        | rr => (1, rr)
      let ds := sr.2.takeWhile Char.isDigit
      if ds = [] ∨ sr.2.dropWhile Char.isDigit ≠ [] then Option.none
      else some (sr.1 * (natOfDigits ds : Int))
    else Option.none

/-- Models Python `float(s)` on a string: strips surrounding whitespace, then
accepts `[sign] digits [. digits] [e [sign] digits]` with at least one mantissa
digit, returning the exact rational value.  (The special literals
`inf`/`nan` and digit-group underscores are not modelled; no claim depends on
them.) -/
def parseFloat (s : String) : Option ℚ :=
  let ws : Char → Bool := fun c => c = ' ' || c = '\t' || c = '\n' || c = '\r'
  let cs := ((s.data.dropWhile ws).reverse.dropWhile ws).reverse
  let sgncs : ℚ × List Char :=
    match cs with
    | '+' :: r => (1, r)
    | '-' :: r => (-1, r)
    | r => (1, r)
  let ip := sgncs.2.takeWhile Char.isDigit
  let r1 := sgncs.2.dropWhile Char.isDigit
  let fr : List Char × List Char :=
    match r1 with
    | '.' :: r => (r.takeWhile Char.isDigit, r.dropWhile Char.isDigit)
    | r => ([], r)
  if ip = [] ∧ fr.1 = [] then Option.none
  else
    match parseExp fr.2 with
    | Option.none => Option.none
    | some e =>
      some (sgncs.1 * ((natOfDigits ip : ℚ) + (natOfDigits fr.1 : ℚ) / (10 : ℚ) ^ fr.1.length)
        * (10 : ℚ) ^ e)

/-- Models Python `float(x)` on a raw state value: `float(None)` raises
(`TypeError`), `float(True) = 1.0`, `float(False) = 0.0`, strings are parsed
as float literals. -/
def pyFloat : StateVal → Option ℚ
  | .none => Option.none
  | .bool b => some (if b then 1 else 0)
  | .str s => parseFloat s

/-- `is_float(state)`: `float(state.state)` succeeds (the source's
`float(...) is not None` is `True` whenever the conversion does not raise). -/
def is_float (s : State) : Bool := (pyFloat s.state).isSome

/-- `is_bool(state)`: native booleans, or membership of the literal tokens
`on/off/yes/no/true/false/1/0` (a `None` value is in neither list). -/
def is_bool (s : State) : Bool :=
  match s.state with
  | .bool _ => true
  | .str v => ["on", "off", "yes", "no", "true", "false", "1", "0"].contains v
  | .none => false

/-- `as_bool(state)`: native booleans pass through, otherwise membership of
the truthy tokens `on/yes/true/1`. -/
def as_bool (s : State) : Bool :=
  match s.state with
  | .bool b => b
  | .str v => ["on", "yes", "true", "1"].contains v
  | .none => false

/-- `float_states(states)`: `[float(s.state) for s in states if is_float(s)]`. -/
def float_states (states : List State) : List ℚ :=
  states.filterMap (fun s => pyFloat s.state)

/-- `bool_states(states)`: `[as_bool(s) for s in states if is_bool(s)]`. -/
def bool_states (states : List State) : List Bool :=
  (states.filter is_bool).map as_bool

/-- Result type of a calculation (`StateType`): `None`, a string, a boolean,
or a number. -/
inductive StateType where
  | none
  | str (s : String)
  | bool (b : Bool)
  | num (q : ℚ)
deriving DecidableEq, Repr

/-- Injection of a raw state value into the calculation result type
(`calculate_last` returns `state.state` unchanged). -/
def StateVal.toStateType : StateVal → StateType
  | .none => .none
  | .str s => .str s
  | .bool b => .bool b

/-- `calculate_max(states)`. -/
def calculate_max (states : List State) : StateType :=
  match float_states states with
  | [] => .str STATE_UNKNOWN
  | x :: xs => .num (xs.foldl max x)

/-- `calculate_min(states)`. -/
def calculate_min (states : List State) : StateType :=
  match float_states states with
  | [] => .str STATE_UNKNOWN
  | x :: xs => .num (xs.foldl min x)

/-- `calculate_mean(states)` (`statistics.mean` is the exact sum divided by
the count). -/
def calculate_mean (states : List State) : StateType :=
  match float_states states with
  | [] => .str STATE_UNKNOWN
  | x :: xs => .num ((x :: xs).sum / ((x :: xs).length : ℚ))

/-- Insertion step of an ascending sort on rationals (used by `median`). -/
def insertAsc (a : ℚ) : List ℚ → List ℚ
  | [] => [a]
  | b :: bs => if a ≤ b then a :: b :: bs else b :: insertAsc a bs

/-- Ascending sort on rationals (used by `median`). -/
def sortAsc : List ℚ → List ℚ
  | [] => []
  | a :: rest => insertAsc a (sortAsc rest)

/-- `calculate_median(states)` (`statistics.median`: middle element of the
sorted values for an odd count, average of the two middle elements for an
even count). -/
def calculate_median (states : List State) : StateType :=
  match float_states states with
  | [] => .str STATE_UNKNOWN
  | x :: xs =>
    let s := sortAsc (x :: xs)
    let n := (x :: xs).length
    if n % 2 = 1 then .num (s.getD (n / 2) 0)
    else .num ((s.getD (n / 2 - 1) 0 + s.getD (n / 2) 0) / 2)

/-- `calculate_all(states)`. -/
def calculate_all (states : List State) : StateType :=
  let calc_values := bool_states states
  if calc_values.length = 0 then .str STATE_UNKNOWN
  else .bool ((calc_values.filter (fun v => !v)).length == 0)

/-- `calculate_one(states)`. -/
def calculate_one (states : List State) : StateType :=
  let calc_values := bool_states states
  if calc_values.length = 0 then .str STATE_UNKNOWN
  else .bool (decide (0 < (calc_values.filter (fun v => v)).length))

/-- `calculate_none(states)`. -/
def calculate_none (states : List State) : StateType :=
  let calc_values := bool_states states
  if calc_values.length = 0 then .str STATE_UNKNOWN
  else .bool ((calc_values.filter (fun v => v)).length == 0)

/-- The filter of `calculate_last`: keep states whose value is not `None` and
not one of `STATE_UNKNOWN`/`STATE_UNAVAILABLE`. -/
def keep_last (s : State) : Bool :=
  s.state != StateVal.none && s.state != .str STATE_UNKNOWN
    && s.state != .str STATE_UNAVAILABLE

/-- Insertion step of a stable descending sort by `last_updated` (Python's
`sorted(..., reverse=True)` is stable: an earlier element precedes a later
element with an equal key). -/
def insertDesc (a : State) : List State → List State
  | [] => [a]
  | b :: bs =>
    if b.last_updated ≤ a.last_updated then a :: b :: bs else b :: insertDesc a bs

/-- Stable descending sort by `last_updated`, modelling
`sorted(calc_values, key=lambda v: v.last_updated, reverse=True)`. -/
def sortDesc : List State → List State
  | [] => []
  | a :: rest => insertDesc a (sortDesc rest)

/-- `calculate_last(states)`: filter out `None`/unknown/unavailable values,
then take `.state` of the head of the descending-by-`last_updated` stable
sort (the default of `headD` is never used: the sort of a non-empty list is
non-empty). -/
def calculate_last (states : List State) : StateType :=
  match states.filter keep_last with
  | [] => .str STATE_UNKNOWN
  | x :: xs => (((sortDesc (x :: xs)).headD x).state).toStateType

/-- The `CALCULATE` strategy table, keyed by strategy name. -/
def CALCULATE : List (String × (List State → StateType)) :=
  [("max", calculate_max), ("mean", calculate_mean), ("min", calculate_min),
   ("median", calculate_median), ("all", calculate_all), ("one", calculate_one),
   ("none", calculate_none), ("last", calculate_last)]

/-- `CALCULATE.get(key, None)`. -/
def CALCULATE_get (key : String) : Option (List State → StateType) :=
  (CALCULATE.find? (fun p => p.1 == key)).map (fun p => p.2)

/-- Default strategy for illuminance sensors (`CALCULATE_LAST`). -/
def DEFAULT_CALCULATION_ILLUMINANCE : String := "last"

/-- Default strategy for temperature sensors (`CALCULATE_MEAN`). -/
def DEFAULT_CALCULATION_TEMPERATURE : String := "mean"

/-- Default strategy for humidity sensors (`CALCULATE_MAX`). -/
def DEFAULT_CALCULATION_HUMIDITY : String := "max"

/-- Default strategy for presence sensors (`CALCULATE_ALL`). -/
def DEFAULT_CALCULATION_PRESENCE : String := "all"

/-- The sensor/binary-sensor device classes `get_calculation_key`
distinguishes. -/
inductive DeviceClass where
  | illuminance
  | temperature
  | humidity
  | motion
  | presence
  | occupancy
  | other
deriving DecidableEq, Repr

/-- The per-entry options mapping restricted to the calculation-strategy keys
(`CONFIG_*_CALCULATION` from `const.py`); a field holds the configured value
when its key is present in the mapping. -/
structure ConfigOptions where
  illuminance_calculation : Option String := Option.none
  temperature_calculation : Option String := Option.none
  humidity_calculation : Option String := Option.none
  presence_calculation : Option String := Option.none
deriving DecidableEq, Repr

/-- `get_calculation_key(config_options, sensor_type)`:
`config_options.get(key, default)` per device class; `None` for any other
device class. -/
def get_calculation_key (opts : ConfigOptions) (dc : DeviceClass) : Option String :=
  match dc with
  | .illuminance => some (opts.illuminance_calculation.getD DEFAULT_CALCULATION_ILLUMINANCE)
  | .temperature => some (opts.temperature_calculation.getD DEFAULT_CALCULATION_TEMPERATURE)
  | .humidity => some (opts.humidity_calculation.getD DEFAULT_CALCULATION_HUMIDITY)
  | .motion => some (opts.presence_calculation.getD DEFAULT_CALCULATION_PRESENCE)
  | .presence => some (opts.presence_calculation.getD DEFAULT_CALCULATION_PRESENCE)
  | .occupancy => some (opts.presence_calculation.getD DEFAULT_CALCULATION_PRESENCE)
  | .other => Option.none

/-- `get_calculation(config_options, sensor_type)`: resolve the key, then
`CALCULATE.get(key, None)`. -/
def get_calculation (opts : ConfigOptions) (dc : DeviceClass) :
    Option (List State → StateType) :=
  match get_calculation_key opts dc with
  | Option.none => Option.none
  | some key => CALCULATE_get key

/-! The `AutoEntity` aggregate tracker (`auto_entity.py`).  The host-side
collaborators a tracker consults are collected in `Env`: the resolved
membership (`get_sensor_entities()`), the host state machine
(`hass.states.get`) and the configuration.  The tracker's own mutable fields
are `Tracker`; `subscribed` models `_async_unsub_state_changed is not None`. -/

structure Env where
  opts : ConfigOptions
  device_class : DeviceClass
  members : List String
  hass_states : String → Option State

/-- The mutable fields of `AutoEntity` relevant to tracking: `entity_ids`,
the `entity_states` snapshot (an insertion-ordered dict, modelled as an
association list with unique keys maintained by `dictSet`/`dictPop`),
`_aggregated_state`, and whether a state-change subscription is active. -/
structure Tracker where
  entity_ids : List String
  entity_states : List (String × State)
  aggregated_state : StateType
  subscribed : Bool
deriving DecidableEq, Repr

/-- Python dict assignment `d[k] = v`: replace in place if the key exists,
otherwise append (insertion order preserved). -/
def dictSet (k : String) (v : State) (d : List (String × State)) :
    List (String × State) :=
  if d.any (fun p => p.1 == k) then
    d.map (fun p => if p.1 == k then (k, v) else p)
  else d ++ [(k, v)]

/-- Python `d.pop(k, None)`: drop the entry with key `k`, if any. -/
def dictPop (k : String) (d : List (String × State)) : List (String × State) :=
  d.filter (fun p => p.1 != k)

/-- Python `d.values()` in insertion order. -/
def dictValues (d : List (String × State)) : List State := d.map (fun p => p.2)

/-- Python `d.keys()` in insertion order. -/
def dictKeys (d : List (String × State)) : List String := d.map (fun p => p.1)

/-- `_see_state(state)`: ignore `None` state objects; pop entries whose value
is `STATE_UNKNOWN`/`STATE_UNAVAILABLE` (and not `None`); otherwise store the
state (the source's `try`/`except ValueError` around the dict assignment can
never fire: no coercion is performed). -/
def see_state (t : Tracker) (st : Option State) : Tracker :=
  match st with
  | Option.none => t
  | some st =>
    if st.state != StateVal.none
        && (st.state == .str STATE_UNKNOWN || st.state == .str STATE_UNAVAILABLE) then
      { t with entity_states := dictPop st.entity_id t.entity_states }
    else
      { t with entity_states := dictSet st.entity_id st t.entity_states }

/-- `_get_state()`: `STATE_UNAVAILABLE` on an empty snapshot, `None` when no
calculation strategy resolves, otherwise the strategy applied to the
snapshot's values. -/
def get_state (env : Env) (t : Tracker) : StateType :=
  if (dictValues t.entity_states).length = 0 then .str STATE_UNAVAILABLE
  else
    match get_calculation env.opts env.device_class with
    | Option.none => StateType.none
    | some f => f (dictValues t.entity_states)

/-- `_get_state()` paired with the list of error-log records the call emits.
The source of `_get_state` and `get_calculation` contains no logger call, so
every branch emits the empty log. -/
def get_state_logged (env : Env) (t : Tracker) : StateType × List String :=
  if (dictValues t.entity_states).length = 0 then (.str STATE_UNAVAILABLE, [])
  else
    match get_calculation env.opts env.device_class with
    | Option.none => (StateType.none, [])
    | some f => (f (dictValues t.entity_states), [])

/-- `_reset_tracked_state()`: refresh `entity_ids` from
`get_sensor_entities()`, clear the snapshot, and re-seed it via `_see_state`
from the host's known state of each member. -/
def reset_tracked_state (env : Env) (t : Tracker) : Tracker :=
  let t1 : Tracker := { t with entity_ids := env.members, entity_states := [] }
  env.members.foldl
    (fun acc eid =>
      match env.hass_states eid with
      | Option.none => acc
      | some st => see_state acc (some st)) t1

/-- `_async_update_group_state(new_state)`: `_see_state` the new state when
one is given (a `State` object is always truthy), then recompute
`_aggregated_state` via `_get_state`. -/
def update_group_state (env : Env) (t : Tracker) (new_state : Option State) :
    Tracker :=
  let t1 :=
    match new_state with
    | Option.none => t
    | some st => see_state t (some st)
  { t1 with aggregated_state := get_state env t1 }

/-- `_async_stop()`: cancel the subscription if one is active, otherwise do
nothing. -/
def async_stop (t : Tracker) : Tracker :=
  if t.subscribed then { t with subscribed := false } else t

/-- `_async_start_tracking()`: subscribe when there are members and no active
subscription, then update the group state. -/
def start_tracking (env : Env) (t : Tracker) : Tracker :=
  let t1 :=
    if !t.entity_ids.isEmpty && !t.subscribed then { t with subscribed := true } else t
  update_group_state env t1 Option.none

/-- `_async_state_changed_listener(event)`: return immediately when the
subscription was removed; on a `None` new state, `_reset_tracked_state`;
always fall through to `_async_update_group_state(new_state)`. -/
def state_changed_listener (env : Env) (t : Tracker) (new_state : Option State) :
    Tracker :=
  if !t.subscribed then t
  else
    let t1 := if new_state.isNone then reset_tracked_state env t else t
    update_group_state env t1 new_state

/-- Insertion step of an ascending string sort (used to model Python
`sorted` on entity-id lists; only equality of the sorted lists is consumed). -/
def insertStr (a : String) : List String → List String
  | [] => [a]
  | b :: bs => if a < b then a :: b :: bs else b :: insertStr a bs

/-- Models Python `sorted` on a list of entity ids. -/
def sort_strings : List String → List String
  | [] => []
  | a :: rest => insertStr a (sort_strings rest)

/-- `async_update_tracked_entity_ids()`: early return when the sorted current
ids equal the sorted freshly resolved ids; otherwise stop, reset, restart
tracking.  The boolean result records whether the
stop/reset/resubscribe path ran (false on the early return). -/
def update_tracked_entity_ids (env : Env) (t : Tracker) : Tracker × Bool :=
  if sort_strings t.entity_ids = sort_strings env.members then (t, false)
  else
    let t1 := async_stop t
    let t2 := reset_tracked_state env t1
    let t3 := start_tracking env t2
    (t3, true)

/-! Theorems. -/

/-- The float-parseable subset of the input, as parsed values: the subset is
selected by `is_float` and each member is converted by `pyFloat`.  The `getD`
default is never consulted: `is_float` guarantees that the parse succeeded. -/
def parseable_floats (l : List State) : List ℚ :=
  (l.filter is_float).map (fun s => (pyFloat s.state).getD 0)

theorem float_states_eq_parseable (l : List State) :
    float_states l = parseable_floats l := by
  induction l with
  | nil => rfl
  | cons s l ih =>
    unfold float_states parseable_floats at *
    cases hp : pyFloat s.state with
    | none => simp [List.filterMap_cons, List.filter_cons, hp, is_float, ih]
    | some q => simp [List.filterMap_cons, List.filter_cons, hp, is_float, ih]

/-- C1 counterexample: on the empty list (whose float-parseable subset is
empty) each numeric calculation returns the string `STATE_UNKNOWN`
(`"unknown"`), which is not the unavailable marker `STATE_UNAVAILABLE`
(`"unavailable"`). -/
theorem c1_counterexample :
    calculate_max [] ≠ StateType.str STATE_UNAVAILABLE
    ∧ calculate_min [] ≠ StateType.str STATE_UNAVAILABLE
    ∧ calculate_mean [] ≠ StateType.str STATE_UNAVAILABLE
    ∧ calculate_median [] ≠ StateType.str STATE_UNAVAILABLE
    ∧ calculate_max [] = StateType.str STATE_UNKNOWN := by
  refine ⟨?_, ?_, ?_, ?_, ?_⟩ <;> decide

/-- C1 (amended): for every list of states whose float-parseable subset is
empty, each numeric calculation function returns the `STATE_UNKNOWN` marker
(`"unknown"`) — in particular a string marker, not a number, and as a total
function it raises nothing. -/
theorem c1_numeric_empty_unknown (l : List State) (h : float_states l = []) :
    calculate_max l = StateType.str STATE_UNKNOWN
    ∧ calculate_min l = StateType.str STATE_UNKNOWN
    ∧ calculate_mean l = StateType.str STATE_UNKNOWN
    ∧ calculate_median l = StateType.str STATE_UNKNOWN := by
  unfold calculate_max calculate_min calculate_mean calculate_median
  rw [h]
  exact ⟨rfl, rfl, rfl, rfl⟩

/-- C1 witness: a list holding only the unparseable value `"abc"` has an
empty float-parseable subset and every numeric calculation returns
`STATE_UNKNOWN` on it. -/
theorem c1_numeric_empty_unknown_witness :
    float_states [⟨"sensor.t1", StateVal.str "abc", 0⟩] = []
    ∧ (calculate_max [⟨"sensor.t1", StateVal.str "abc", 0⟩] = StateType.str STATE_UNKNOWN
      ∧ calculate_min [⟨"sensor.t1", StateVal.str "abc", 0⟩] = StateType.str STATE_UNKNOWN
      ∧ calculate_mean [⟨"sensor.t1", StateVal.str "abc", 0⟩] = StateType.str STATE_UNKNOWN
      ∧ calculate_median [⟨"sensor.t1", StateVal.str "abc", 0⟩] = StateType.str STATE_UNKNOWN) :=
  ⟨by decide, c1_numeric_empty_unknown _ (by decide)⟩

/-- C4: for every list of states containing at least one float-parseable
value, `calculate_mean` returns the arithmetic mean — the sum divided by the
count — of the float-parseable subset of the input. -/
theorem c4_mean_is_arithmetic_mean (l : List State) (h : l.filter is_float ≠ []) :
    calculate_mean l
      = StateType.num ((parseable_floats l).sum / ((parseable_floats l).length : ℚ)) := by
  have hP : parseable_floats l ≠ [] := by
    intro hnil
    exact h (List.map_eq_nil_iff.mp hnil)
  unfold calculate_mean
  rw [float_states_eq_parseable]
  cases hp : parseable_floats l with
  | nil => exact absurd hp hP
  | cons y ys => rfl

/-- C4 witness: on the two parseable states `"1"` and `"2"` the mean equals
the sum of the parsed subset divided by its count. -/
theorem c4_mean_is_arithmetic_mean_witness :
    [⟨"a", StateVal.str "1", 0⟩, ⟨"b", StateVal.str "2", 0⟩].filter is_float ≠ []
    ∧ calculate_mean [⟨"a", StateVal.str "1", 0⟩, ⟨"b", StateVal.str "2", 0⟩]
      = StateType.num
          ((parseable_floats [⟨"a", StateVal.str "1", 0⟩, ⟨"b", StateVal.str "2", 0⟩]).sum
            / ((parseable_floats [⟨"a", StateVal.str "1", 0⟩, ⟨"b", StateVal.str "2", 0⟩]).length : ℚ)) :=
  ⟨by decide, c4_mean_is_arithmetic_mean _ (by decide)⟩

/-- C5: for every list of states whose boolean-coercible subset (selected by
`is_bool`, which accepts the literal tokens on/off/yes/no/true/false/1/0 and
native booleans, coerced by `as_bool`) is non-empty, `calculate_all` is true
iff every coerced value is true, `calculate_one` is true iff at least one is
true, and `calculate_none` is true iff none is true. -/
theorem c5_bool_calcs (l : List State) (h : bool_states l ≠ []) :
    ∃ ba bo bn : Bool,
      calculate_all l = StateType.bool ba ∧ (ba = true ↔ ∀ b ∈ bool_states l, b = true)
      ∧ calculate_one l = StateType.bool bo ∧ (bo = true ↔ ∃ b ∈ bool_states l, b = true)
      ∧ calculate_none l = StateType.bool bn ∧ (bn = true ↔ ∀ b ∈ bool_states l, b = false) := by
  have hlen : ¬ (bool_states l).length = 0 := by
    simpa [List.length_eq_zero] using h
  refine ⟨((bool_states l).filter (fun v => !v)).length == 0,
    decide (0 < ((bool_states l).filter (fun v => v)).length),
    ((bool_states l).filter (fun v => v)).length == 0, ?_, ?_, ?_, ?_, ?_, ?_⟩
  · unfold calculate_all; rw [if_neg hlen]
  · simp [List.length_eq_zero, List.filter_eq_nil_iff]
  · unfold calculate_one; rw [if_neg hlen]
  · simp [List.length_pos, List.filter_eq_nil_iff]
  · unfold calculate_none; rw [if_neg hlen]
  · simp [List.length_eq_zero, List.filter_eq_nil_iff]

/-- C5 witness: on the states `on` and `off`, all is false, one and none get
their if-and-only-if characterizations. -/
theorem c5_bool_calcs_witness :
    bool_states [⟨"a", StateVal.str "on", 0⟩, ⟨"b", StateVal.str "off", 0⟩] ≠ []
    ∧ ∃ ba bo bn : Bool,
      calculate_all [⟨"a", StateVal.str "on", 0⟩, ⟨"b", StateVal.str "off", 0⟩] = StateType.bool ba
      ∧ (ba = true ↔ ∀ b ∈ bool_states [⟨"a", StateVal.str "on", 0⟩, ⟨"b", StateVal.str "off", 0⟩], b = true)
      ∧ calculate_one [⟨"a", StateVal.str "on", 0⟩, ⟨"b", StateVal.str "off", 0⟩] = StateType.bool bo
      ∧ (bo = true ↔ ∃ b ∈ bool_states [⟨"a", StateVal.str "on", 0⟩, ⟨"b", StateVal.str "off", 0⟩], b = true)
      ∧ calculate_none [⟨"a", StateVal.str "on", 0⟩, ⟨"b", StateVal.str "off", 0⟩] = StateType.bool bn
      ∧ (bn = true ↔ ∀ b ∈ bool_states [⟨"a", StateVal.str "on", 0⟩, ⟨"b", StateVal.str "off", 0⟩], b = false) :=
  ⟨by decide, c5_bool_calcs _ (by decide)⟩

/-- C10: for every list of states, when the boolean-coercible subset is
non-empty `calculate_one` returns the boolean negation of `calculate_none`,
and when it is empty both return the same `STATE_UNKNOWN` marker. -/
theorem c10_one_negates_none (l : List State) :
    (bool_states l = [] →
      calculate_one l = StateType.str STATE_UNKNOWN
      ∧ calculate_none l = StateType.str STATE_UNKNOWN)
    ∧ (bool_states l ≠ [] →
      ∃ b : Bool, calculate_none l = StateType.bool b ∧ calculate_one l = StateType.bool (!b)) := by
  constructor
  · intro h
    unfold calculate_one calculate_none
    rw [h]
    exact ⟨rfl, rfl⟩
  · intro h
    have hlen : ¬ (bool_states l).length = 0 := by
      simpa [List.length_eq_zero] using h
    refine ⟨((bool_states l).filter (fun v => v)).length == 0, ?_, ?_⟩
    · unfold calculate_none; rw [if_neg hlen]
    · unfold calculate_one; rw [if_neg hlen]
      cases hn : ((bool_states l).filter (fun v => v)).length <;> simp [hn]

/-- Specification-side selector for `calculate_last`: the first element, in
original list order, whose `last_updated` is maximal (an earlier element wins
a timestamp tie). -/
def firstMax : List State → Option State
  | [] => Option.none
  | a :: l =>
    match firstMax l with
    | Option.none => some a
    | some m => if a.last_updated < m.last_updated then some m else some a

theorem firstMax_eq_none_iff (l : List State) : firstMax l = Option.none ↔ l = [] := by
  cases l with
  | nil => simp [firstMax]
  | cons a l =>
    constructor
    · intro h
      exfalso
      unfold firstMax at h
      cases hfm : firstMax l with
      | none => rw [hfm] at h; simp at h
      | some m =>
        rw [hfm] at h
        by_cases hx : a.last_updated < m.last_updated <;> simp [hx] at h
    · intro h
      exact absurd h (List.cons_ne_nil a l)

theorem firstMax_mem : ∀ {l : List State} {m : State}, firstMax l = some m → m ∈ l := by
  intro l
  induction l with
  | nil => intro m h; simp [firstMax] at h
  | cons a l ih =>
    intro m h
    unfold firstMax at h
    cases hl : firstMax l with
    | none =>
      rw [hl] at h
      simp at h
      simp [← h]
    | some m' =>
      rw [hl] at h
      by_cases hlt : a.last_updated < m'.last_updated
      · simp [hlt] at h
        exact h ▸ List.mem_cons_of_mem a (ih hl)
      · simp [hlt] at h
        simp [← h]

theorem firstMax_ge : ∀ {l : List State} {m : State}, firstMax l = some m →
    ∀ s ∈ l, s.last_updated ≤ m.last_updated := by
  intro l
  induction l with
  | nil => intro m h; simp [firstMax] at h
  | cons a l ih =>
    intro m h s hs
    unfold firstMax at h
    cases hl : firstMax l with
    | none =>
      have hnil : l = [] := (firstMax_eq_none_iff l).mp hl
      subst hnil
      rw [hl] at h
      simp at h
      have hsa : s = a := by simpa using hs
      simp [hsa, h]
    | some m' =>
      rw [hl] at h
      rcases List.mem_cons.mp hs with hsa | hsl
      · by_cases hlt : a.last_updated < m'.last_updated
        · simp [hlt] at h
          exact hsa ▸ h ▸ Nat.le_of_lt hlt
        · simp [hlt] at h
          simp [hsa, h]
      · by_cases hlt : a.last_updated < m'.last_updated
        · simp [hlt] at h
          exact h ▸ ih hl s hsl
        · simp [hlt] at h
          exact h ▸ (ih hl s hsl).trans (Nat.le_of_not_lt hlt)

theorem sortDesc_cons_ne_nil (a : State) (l : List State) : sortDesc (a :: l) ≠ [] := by
  show insertDesc a (sortDesc l) ≠ []
  cases sortDesc l with
  | nil => simp [insertDesc]
  | cons b bs => unfold insertDesc; split <;> simp

theorem headD_sortDesc : ∀ (l : List State) (a d : State),
    some ((sortDesc (a :: l)).headD d) = firstMax (a :: l) := by
  intro l
  induction l with
  | nil => intro a d; rfl
  | cons b bs ih =>
    intro a d
    show some ((insertDesc a (sortDesc (b :: bs))).headD d) = firstMax (a :: b :: bs)
    cases hs : sortDesc (b :: bs) with
    | nil => exact absurd hs (sortDesc_cons_ne_nil b bs)
    | cons h t =>
      have hh : some h = firstMax (b :: bs) := by
        have hb := ih b d
        rw [hs] at hb
        simpa using hb
      unfold firstMax
      rw [← hh]
      unfold insertDesc
      by_cases hle : h.last_updated ≤ a.last_updated
      · rw [if_pos hle]
        simp [Nat.not_lt.mpr hle]
      · rw [if_neg hle]
        simp [Nat.lt_of_not_le hle]

theorem find?_agree {α : Type} (p q : α → Bool) :
    ∀ l : List α, (∀ x ∈ l, p x = q x) → l.find? p = l.find? q := by
  intro l
  induction l with
  | nil => intro _; rfl
  | cons a l ih =>
    intro hagree
    have ha := hagree a (List.mem_cons_self a l)
    by_cases hpa : p a = true
    · rw [List.find?_cons_of_pos _ hpa, List.find?_cons_of_pos _ (ha ▸ hpa)]
    · have hqa : ¬ q a = true := ha ▸ hpa
      rw [List.find?_cons_of_neg _ (by simpa using hpa),
        List.find?_cons_of_neg _ (by simpa using hqa)]
      exact ih (fun x hx => hagree x (List.mem_cons_of_mem a hx))

theorem firstMax_eq_find? : ∀ l : List State,
    firstMax l
      = l.find? (fun s => l.all (fun u => decide (u.last_updated ≤ s.last_updated))) := by
  intro l
  induction l with
  | nil => rfl
  | cons a l ih =>
    cases hl : firstMax l with
    | none =>
      have hnil : l = [] := (firstMax_eq_none_iff l).mp hl
      subst hnil
      simp [firstMax, List.find?]
    | some m' =>
      have hmem := firstMax_mem hl
      have hge := firstMax_ge hl
      by_cases hlt : a.last_updated < m'.last_updated
      · have hL : firstMax (a :: l) = some m' := by
          simp [firstMax, hl, hlt]
        rw [hL]
        have hpa : ((a :: l).all (fun u => decide (u.last_updated ≤ a.last_updated))) = false := by
          apply List.all_eq_false.mpr
          exact ⟨m', List.mem_cons_of_mem a hmem, by simpa using Nat.not_le.mpr hlt⟩
        rw [List.find?_cons_of_neg _ (by simp [hpa])]
        have hagree : ∀ x ∈ l,
            ((a :: l).all (fun u => decide (u.last_updated ≤ x.last_updated)))
              = (l.all (fun u => decide (u.last_updated ≤ x.last_updated))) := by
          intro x _
          cases hq : l.all (fun u => decide (u.last_updated ≤ x.last_updated)) with
          | false => simp [List.all_cons, hq]
          | true =>
            have hmx : m'.last_updated ≤ x.last_updated := by
              simpa using List.all_eq_true.mp hq m' hmem
            have hax : a.last_updated ≤ x.last_updated :=
              (Nat.le_of_lt hlt).trans hmx
            simp [List.all_cons, hq, hax]
        rw [find?_agree _ _ l hagree, ← ih, hl]
      · have hL : firstMax (a :: l) = some a := by
          simp [firstMax, hl, hlt]
        rw [hL]
        have hpa : ((a :: l).all (fun u => decide (u.last_updated ≤ a.last_updated))) = true := by
          apply List.all_eq_true.mpr
          intro u hu
          rcases List.mem_cons.mp hu with hua | hul
          · simp [hua]
          · simpa using (hge u hul).trans (Nat.le_of_not_lt hlt)
        exact (@List.find?_cons_of_pos State
          (fun s => (a :: l).all (fun u => decide (u.last_updated ≤ s.last_updated)))
          a l hpa).symm

/-- C8 counterexample: on a list whose only state carries the value
`"unavailable"` (so nothing remains after filtering), `calculate_last`
returns the string `STATE_UNKNOWN` (`"unknown"`), not the unavailable
marker. -/
theorem c8_counterexample :
    [⟨"e1", StateVal.str "unavailable", 3⟩].filter keep_last = []
    ∧ calculate_last [⟨"e1", StateVal.str "unavailable", 3⟩] = StateType.str STATE_UNKNOWN
    ∧ calculate_last [⟨"e1", StateVal.str "unavailable", 3⟩] ≠ StateType.str STATE_UNAVAILABLE := by
  refine ⟨?_, ?_, ?_⟩ <;> decide

/-- C8 (amended): `calculate_last` filters out states whose value is
`None`/`"unknown"`/`"unavailable"`; on an empty remainder it returns the
`STATE_UNKNOWN` marker, and otherwise it returns the value of the first
state, in original list order, whose update timestamp is maximal — i.e. the
most recent state with timestamp ties broken by original list order (the
`find?`/`all` hypothesis characterizes exactly that element). -/
theorem c8_last_most_recent (l : List State) :
    (l.filter keep_last = [] → calculate_last l = StateType.str STATE_UNKNOWN)
    ∧ (∀ m : State,
        (l.filter keep_last).find?
            (fun s => (l.filter keep_last).all
              (fun u => decide (u.last_updated ≤ s.last_updated))) = some m →
        calculate_last l = m.state.toStateType
        ∧ m ∈ l.filter keep_last
        ∧ ∀ s ∈ l.filter keep_last, s.last_updated ≤ m.last_updated) := by
  constructor
  · intro h
    unfold calculate_last
    rw [h]
  · intro m hfind
    have hFM : firstMax (l.filter keep_last) = some m := by
      rw [firstMax_eq_find? (l.filter keep_last)]
      exact hfind
    refine ⟨?_, firstMax_mem hFM, firstMax_ge hFM⟩
    unfold calculate_last
    cases hk : l.filter keep_last with
    | nil => rw [hk] at hFM; simp [firstMax] at hFM
    | cons x xs =>
      rw [hk] at hFM
      have hhd := headD_sortDesc xs x x
      rw [hFM] at hhd
      have hhead : (sortDesc (x :: xs)).headD x = m := by simpa using hhd
      show ((sortDesc (x :: xs)).headD x).state.toStateType = m.state.toStateType
      rw [hhead]

/-- C8 witness: with two kept states sharing the maximal timestamp `5`, the
earlier one (value `"10"`) is selected. -/
theorem c8_last_most_recent_witness :
    calculate_last [⟨"a", StateVal.str "10", 5⟩, ⟨"b", StateVal.str "20", 5⟩]
      = StateType.str "10"
    ∧ (⟨"a", StateVal.str "10", 5⟩ : State)
        ∈ [⟨"a", StateVal.str "10", 5⟩, ⟨"b", StateVal.str "20", 5⟩].filter keep_last
    ∧ ∀ s ∈ [⟨"a", StateVal.str "10", 5⟩, ⟨"b", StateVal.str "20", 5⟩].filter keep_last,
        s.last_updated ≤ 5 :=
  (c8_last_most_recent [⟨"a", StateVal.str "10", 5⟩, ⟨"b", StateVal.str "20", 5⟩]).2
    ⟨"a", StateVal.str "10", 5⟩ (by decide)

theorem async_stop_subscribed (t : Tracker) : (async_stop t).subscribed = false := by
  unfold async_stop
  split
  · rfl
  · next h => simpa using h

theorem async_stop_of_not_subscribed (t : Tracker) (h : t.subscribed = false) :
    async_stop t = t := by
  unfold async_stop
  rw [h]
  simp

/-- C9: once `_async_stop` has run, the state-changed listener ignores every
subsequent event (the tracker is returned unchanged, so neither the snapshot
nor the published state moves, and the total function raises nothing), and
`_async_stop` itself is idempotent and a no-op when no subscription is
active. -/
theorem c9_stop_safe (env : Env) (t : Tracker) (new_state : Option State) :
    state_changed_listener env (async_stop t) new_state = async_stop t
    ∧ async_stop (async_stop t) = async_stop t
    ∧ async_stop { t with subscribed := false } = { t with subscribed := false } := by
  refine ⟨?_, ?_, ?_⟩
  · unfold state_changed_listener
    rw [async_stop_subscribed]
    simp
  · exact async_stop_of_not_subscribed _ (async_stop_subscribed t)
  · exact async_stop_of_not_subscribed _ rfl

theorem see_state_eq_pop {t : Tracker} {s : State}
    (hcond : (s.state != StateVal.none
      && (s.state == StateVal.str STATE_UNKNOWN
        || s.state == StateVal.str STATE_UNAVAILABLE)) = true) :
    see_state t (some s) = { t with entity_states := dictPop s.entity_id t.entity_states } := by
  simp only [see_state]
  rw [if_pos hcond]

theorem see_state_eq_set {t : Tracker} {s : State}
    (hcond : ¬ (s.state != StateVal.none
      && (s.state == StateVal.str STATE_UNKNOWN
        || s.state == StateVal.str STATE_UNAVAILABLE)) = true) :
    see_state t (some s) = { t with entity_states := dictSet s.entity_id s t.entity_states } := by
  simp only [see_state]
  rw [if_neg hcond]

theorem see_state_entity_ids (t : Tracker) (st : Option State) :
    (see_state t st).entity_ids = t.entity_ids := by
  cases st with
  | none => rfl
  | some s =>
    by_cases hcond : (s.state != StateVal.none
        && (s.state == StateVal.str STATE_UNKNOWN
          || s.state == StateVal.str STATE_UNAVAILABLE)) = true
    · rw [see_state_eq_pop hcond]
    · rw [see_state_eq_set hcond]

theorem seed_fold_entity_ids (env : Env) :
    ∀ (ids : List String) (acc : Tracker),
      (ids.foldl (fun a e =>
        match env.hass_states e with
        | Option.none => a
        | some st => see_state a (some st)) acc).entity_ids = acc.entity_ids := by
  intro ids
  induction ids with
  | nil => intro acc; rfl
  | cons e ids ih =>
    intro acc
    simp only [List.foldl_cons]
    rw [ih]
    cases env.hass_states e with
    | none => rfl
    | some st => exact see_state_entity_ids acc (some st)

theorem reset_entity_ids (env : Env) (t : Tracker) :
    (reset_tracked_state env t).entity_ids = env.members := by
  unfold reset_tracked_state
  rw [seed_fold_entity_ids]

theorem update_group_entity_ids (env : Env) (t : Tracker) (ns : Option State) :
    (update_group_state env t ns).entity_ids = t.entity_ids := by
  unfold update_group_state
  cases ns with
  | none => rfl
  | some st => exact see_state_entity_ids t (some st)

theorem start_tracking_entity_ids (env : Env) (t : Tracker) :
    (start_tracking env t).entity_ids = t.entity_ids := by
  show (update_group_state env
    (if !t.entity_ids.isEmpty && !t.subscribed then { t with subscribed := true } else t)
    Option.none).entity_ids = t.entity_ids
  rw [update_group_entity_ids]
  split <;> rfl

/-- C6: running `async_update_tracked_entity_ids` a second time under the
same resolved membership is a no-op: the tracker — snapshot, subscription and
published aggregate included — is returned unchanged and the
stop/reset/resubscribe path does not run (the boolean is `false`). -/
theorem c6_resync_idempotent (env : Env) (t : Tracker) :
    update_tracked_entity_ids env (update_tracked_entity_ids env t).1
      = ((update_tracked_entity_ids env t).1, false) := by
  have key : ∀ t' : Tracker, sort_strings t'.entity_ids = sort_strings env.members →
      update_tracked_entity_ids env t' = (t', false) := by
    intro t' h
    unfold update_tracked_entity_ids
    rw [if_pos h]
  by_cases h : sort_strings t.entity_ids = sort_strings env.members
  · rw [key t h]
    exact key t h
  · have hfst : (update_tracked_entity_ids env t).1
        = start_tracking env (reset_tracked_state env (async_stop t)) := by
      unfold update_tracked_entity_ids
      rw [if_neg h]
    rw [hfst]
    apply key
    rw [start_tracking_entity_ids, reset_entity_ids]

/-- The snapshot invariant of the spec's data model: no entry of
`entity_states` carries the value `"unknown"` or `"unavailable"`. -/
def goodSnap (t : Tracker) : Prop :=
  ∀ p ∈ t.entity_states, p.2.state ≠ StateVal.str STATE_UNKNOWN
    ∧ p.2.state ≠ StateVal.str STATE_UNAVAILABLE

theorem mem_dictSet {k : String} {v : State} {d : List (String × State)}
    {p : String × State} (hp : p ∈ dictSet k v d) : p ∈ d ∨ p = (k, v) := by
  unfold dictSet at hp
  split at hp
  · rcases List.mem_map.mp hp with ⟨q, hq, hpq⟩
    by_cases hqk : (q.1 == k) = true
    · rw [if_pos hqk] at hpq
      right
      exact hpq.symm
    · rw [if_neg hqk] at hpq
      left
      rw [← hpq]
      exact hq
  · rcases List.mem_append.mp hp with hin | hin
    · left; exact hin
    · right; simpa using hin

theorem goodSnap_see_state {t : Tracker} {st : Option State} (h : goodSnap t) :
    goodSnap (see_state t st) := by
  cases st with
  | none => exact h
  | some s =>
    by_cases hcond : (s.state != StateVal.none
        && (s.state == StateVal.str STATE_UNKNOWN
          || s.state == StateVal.str STATE_UNAVAILABLE)) = true
    · rw [see_state_eq_pop hcond]
      intro p hp
      have hp2 : p ∈ List.filter (fun q => q.1 != s.entity_id) t.entity_states := hp
      exact h p (List.mem_of_mem_filter hp2)
    · rw [see_state_eq_set hcond]
      have h1 : s.state ≠ StateVal.str STATE_UNKNOWN := by
        intro he
        exact hcond (by rw [he]; decide)
      have h2 : s.state ≠ StateVal.str STATE_UNAVAILABLE := by
        intro he
        exact hcond (by rw [he]; decide)
      intro p hp
      rcases mem_dictSet hp with hold | hnew
      · exact h p hold
      · rw [hnew]
        exact ⟨h1, h2⟩

theorem goodSnap_reset (env : Env) (t : Tracker) :
    goodSnap (reset_tracked_state env t) := by
  unfold reset_tracked_state
  have aux : ∀ (ids : List String) (acc : Tracker), goodSnap acc →
      goodSnap (ids.foldl (fun a e =>
        match env.hass_states e with
        | Option.none => a
        | some st => see_state a (some st)) acc) := by
    intro ids
    induction ids with
    | nil => intro acc h; exact h
    | cons e ids ih =>
      intro acc h
      simp only [List.foldl_cons]
      apply ih
      cases env.hass_states e with
      | none => exact h
      | some st => exact goodSnap_see_state h
  apply aux
  intro p hp
  exact absurd hp (List.not_mem_nil p)

theorem goodSnap_update_group (env : Env) (t : Tracker) (ns : Option State)
    (h : goodSnap t) : goodSnap (update_group_state env t ns) := by
  unfold update_group_state
  cases ns with
  | none => intro p hp; exact h p hp
  | some st => intro p hp; exact goodSnap_see_state h p hp

theorem goodSnap_listener (env : Env) (t : Tracker) (ns : Option State)
    (h : goodSnap t) : goodSnap (state_changed_listener env t ns) := by
  unfold state_changed_listener
  split
  · exact h
  · show goodSnap (update_group_state env
      (if ns.isNone then reset_tracked_state env t else t) ns)
    apply goodSnap_update_group
    split
    · exact goodSnap_reset env t
    · exact h

/-- C7: a delivered state with value `"unavailable"` or `"unknown"` removes
the entity from the snapshot (its id is no key of the tracked-state mapping
afterwards); if every previous entry belonged to that entity — it was the
sole contributor — the recomputed aggregate is the unavailable marker; and
the listener preserves the invariant that no snapshot entry carries an
`"unknown"`/`"unavailable"` value, so only entities with other last-known
values ever appear as keys. -/
theorem c7_bad_value_removed (env : Env) (t : Tracker) (st : State)
    (hsub : t.subscribed = true)
    (hbad : st.state = StateVal.str STATE_UNAVAILABLE
      ∨ st.state = StateVal.str STATE_UNKNOWN) :
    (∀ k ∈ dictKeys (state_changed_listener env t (some st)).entity_states,
      k ≠ st.entity_id)
    ∧ ((∀ q ∈ t.entity_states, q.1 = st.entity_id) →
        (state_changed_listener env t (some st)).aggregated_state
          = StateType.str STATE_UNAVAILABLE)
    ∧ (∀ ev : Option State, goodSnap t → goodSnap (state_changed_listener env t ev)) := by
  have hcond : (st.state != StateVal.none
      && (st.state == StateVal.str STATE_UNKNOWN
        || st.state == StateVal.str STATE_UNAVAILABLE)) = true := by
    rcases hbad with hb | hb <;> rw [hb] <;> decide
  have hlis : state_changed_listener env t (some st)
      = { t with
            entity_states := dictPop st.entity_id t.entity_states
            aggregated_state := get_state env
              { t with entity_states := dictPop st.entity_id t.entity_states } } := by
    unfold state_changed_listener
    rw [hsub]
    show update_group_state env t (some st) = _
    show { see_state t (some st) with
            aggregated_state := get_state env (see_state t (some st)) } = _
    rw [see_state_eq_pop hcond, hsub]
  refine ⟨?_, ?_, ?_⟩
  · rw [hlis]
    intro k hk
    rcases List.mem_map.mp hk with ⟨q, hq, hqk⟩
    have hne := List.of_mem_filter hq
    rw [← hqk]
    simpa using hne
  · intro hall
    rw [hlis]
    have hempty : dictPop st.entity_id t.entity_states = [] := by
      unfold dictPop
      apply List.filter_eq_nil_iff.mpr
      intro q hq
      simp [hall q hq]
    show get_state env { t with entity_states := dictPop st.entity_id t.entity_states }
      = StateType.str STATE_UNAVAILABLE
    rw [hempty]
    rfl
  · intro ev hg
    exact goodSnap_listener env t ev hg

/-- Test fixture: a humidity tracker environment with single member `e1`. -/
def envHumidity : Env :=
  { opts := {}
    device_class := DeviceClass.humidity
    members := ["e1"]
    hass_states := fun _ => Option.none }

/-- Test fixture: a subscribed tracker whose sole snapshot entry is `e1 = "40"`. -/
def t40 : Tracker :=
  { entity_ids := ["e1"]
    entity_states := [("e1", ⟨"e1", StateVal.str "40", 1⟩)]
    aggregated_state := StateType.none
    subscribed := true }

/-- Test fixture: a delivered `"unavailable"` state for `e1`. -/
def stUnavail : State := ⟨"e1", StateVal.str "unavailable", 2⟩

/-- C7 witness: a humidity tracker whose sole snapshot entry is `e1` receives
`e1 = "unavailable"`; `e1` disappears from the snapshot keys, the aggregate
becomes the unavailable marker, and the invariant is preserved. -/
theorem c7_bad_value_removed_witness :
    (∀ k ∈ dictKeys (state_changed_listener envHumidity t40 (some stUnavail)).entity_states,
      k ≠ "e1")
    ∧ ((∀ q ∈ t40.entity_states, q.1 = "e1") →
        (state_changed_listener envHumidity t40 (some stUnavail)).aggregated_state
          = StateType.str STATE_UNAVAILABLE)
    ∧ (∀ ev : Option State, goodSnap t40 →
        goodSnap (state_changed_listener envHumidity t40 ev)) :=
  c7_bad_value_removed envHumidity t40 stUnavail rfl (Or.inl rfl)

/-- Test fixture: a temperature tracker environment with single member
`sensor.temp_1`. -/
def envTemp : Env :=
  { opts := {}
    device_class := DeviceClass.temperature
    members := ["sensor.temp_1"]
    hass_states := fun _ => Option.none }

/-- Test fixture: a subscribed temperature tracker with an empty snapshot. -/
def tEmptyTemp : Tracker :=
  { entity_ids := ["sensor.temp_1"]
    entity_states := []
    aggregated_state := StateType.none
    subscribed := true }

/-- Test fixture: a delivered unparseable value for `sensor.temp_1`. -/
def stUnparseable : State := ⟨"sensor.temp_1", StateVal.str "unknown-string", 5⟩

/-- C2: evaluation at the failing input.  A numeric (temperature) tracker
with an empty snapshot receives the unparseable value `"unknown-string"` for
`sensor.temp_1`: the entity id becomes a key of the snapshot (the raw state
is stored — the source performs no float coercion in `_see_state`, so the
surrounding `except ValueError` can never fire), contradicting the claim that
the entity is excluded; the aggregate is then computed over an empty
parseable subset and is `STATE_UNKNOWN`.  No exception is raised (the handler
is total). -/
theorem c2_unparseable_kept_in_snapshot :
    dictKeys (state_changed_listener envTemp tEmptyTemp (some stUnparseable)).entity_states
      = ["sensor.temp_1"]
    ∧ (state_changed_listener envTemp tEmptyTemp (some stUnparseable)).aggregated_state
      = StateType.str STATE_UNKNOWN := by
  refine ⟨?_, ?_⟩ <;> decide

/-- Test fixture: a temperature tracker environment whose configured
calculation key is the unknown strategy name `"bogus"`. -/
def envBogus : Env :=
  { opts := { temperature_calculation := some "bogus" }
    device_class := DeviceClass.temperature
    members := ["sensor.t1"]
    hass_states := fun _ => Option.none }

/-- Test fixture: a subscribed tracker with the snapshot entry
`sensor.t1 = "21"`. -/
def tBogus : Tracker :=
  { entity_ids := ["sensor.t1"]
    entity_states := [("sensor.t1", ⟨"sensor.t1", StateVal.str "21", 3⟩)]
    aggregated_state := StateType.none
    subscribed := true }

/-- C3 counterexample: with the temperature strategy configured to the
unknown key `"bogus"` and a non-empty snapshot, `_get_state` emits no log
record at all (the log trace of the call is empty, refuting "surfaced as a
logged error"), while the lookup yields no strategy and the computed state is
`None`. -/
theorem c3_counterexample :
    CALCULATE_get "bogus" = Option.none
    ∧ get_state_logged envBogus tBogus = (StateType.none, []) :=
  ⟨rfl, rfl⟩

/-- C3 (amended): an unknown calculation-strategy key is not silently
replaced by a default — `get_calculation` resolves to `None` — and the
tracker computes no aggregate: `_get_state` returns `None` (published as
unknown) without crashing; however the source logs nothing in this path, so
no error is surfaced to the log. -/
theorem c3_unknown_strategy (env : Env) (t : Tracker) (key : String)
    (hkey : get_calculation_key env.opts env.device_class = some key)
    (hunk : ∀ p ∈ CALCULATE, p.1 ≠ key)
    (hne : t.entity_states ≠ []) :
    get_calculation env.opts env.device_class = Option.none
    ∧ get_state env t = StateType.none
    ∧ get_state_logged env t = (StateType.none, []) := by
  have hget : get_calculation env.opts env.device_class = Option.none := by
    unfold get_calculation
    rw [hkey]
    show CALCULATE_get key = Option.none
    unfold CALCULATE_get
    rw [List.find?_eq_none.mpr (fun p hp => by simpa using hunk p hp)]
    rfl
  have hlen : ¬ (dictValues t.entity_states).length = 0 := by
    simp only [dictValues, List.length_map, List.length_eq_zero]
    exact hne
  refine ⟨hget, ?_, ?_⟩
  · unfold get_state
    rw [if_neg hlen, hget]
  · unfold get_state_logged
    rw [if_neg hlen, hget]

/-- C3 witness: the concrete `"bogus"` temperature configuration of the
counterexample discharges the hypotheses of the amended theorem. -/
theorem c3_unknown_strategy_witness :
    get_calculation envBogus.opts envBogus.device_class = Option.none
    ∧ get_state envBogus tBogus = StateType.none
    ∧ get_state_logged envBogus tBogus = (StateType.none, []) :=
  c3_unknown_strategy envBogus tBogus "bogus" rfl (by decide) (by decide)

/-- C10 witness: on the empty list both functions return `STATE_UNKNOWN`; on
the single state `on`, `calculate_one` is the negation of `calculate_none`. -/
theorem c10_one_negates_none_witness :
    (calculate_one [] = StateType.str STATE_UNKNOWN
      ∧ calculate_none [] = StateType.str STATE_UNKNOWN)
    ∧ ∃ b : Bool,
        calculate_none [⟨"a", StateVal.str "on", 0⟩] = StateType.bool b
        ∧ calculate_one [⟨"a", StateVal.str "on", 0⟩] = StateType.bool (!b) :=
  ⟨(c10_one_negates_none []).1 rfl, (c10_one_negates_none [⟨"a", StateVal.str "on", 0⟩]).2 (by decide)⟩

end AutoAreas
